import Mathlib

/-!
Shallow embedding of modules/aws/s3.go (terratest S3 helpers).

The Go file is a layer of helpers over the AWS SDK v2 S3 client. Each
E-suffixed helper builds a client, issues SDK calls and returns a value
together with an error; the companion helper without the E suffix calls
the twin and fails the running test on a non-nil error.

The SDK client is modelled as an environment record: one field per SDK
operation the helper issues, returning the data the Go code reads from
the response. Go pointers that the code may dereference are modelled as
Option; dereferencing none is a distinguished panicked outcome. Errors
are modelled as their message strings, since the Go code only inspects
them through strings.Contains. Every embedded helper also returns the
list of SDK calls it issued (client construction excluded), so that
claims about the number and payload of SDK calls can be stated.
-/

namespace Terratest

/-- Character-list version of strings.HasPrefix, used to build substring search. -/
def startsWithChars : List Char → List Char → Bool
  | _, [] => true
  | [], _ :: _ => false
  | h :: hs, p :: ps => h = p && startsWithChars hs ps

/-- Character-list substring search. -/
def containsChars : List Char → List Char → Bool
  | [], pat => pat.isEmpty
  | h :: t, pat => startsWithChars (h :: t) pat || containsChars t pat

/-- Model of strings.Contains(err.Error(), pat) on error messages. -/
def errContains (e pat : String) : Bool := containsChars e.toList pat.toList

/-- aws.ToString: dereference a string pointer, nil becomes the empty string. -/
def awsToString (o : Option String) : String := o.getD ""

/-- types.Tag: Key and Value are string pointers. -/
structure Tag where
  key : Option String
  value : Option String
deriving DecidableEq

/-- types.Bucket as used by FindS3BucketWithTagE: only the Name pointer is read. -/
structure Bucket where
  name : Option String
deriving DecidableEq

/-- s3.GetBucketTaggingOutput: the TagSet slice. -/
structure GetBucketTaggingOutput where
  tagSet : List Tag
deriving DecidableEq

/-- types.ObjectVersion and types.DeleteMarkerEntry: Key and VersionId pointers. -/
structure ObjectVersion where
  key : Option String
  versionId : Option String
deriving DecidableEq

/-- types.ObjectIdentifier, the element type of a bulk-delete payload. -/
structure ObjectIdentifier where
  key : Option String
  versionId : Option String
deriving DecidableEq

/-- s3.ListObjectVersionsOutput: the fields EmptyS3BucketE reads. -/
structure ListObjectVersionsOutput where
  versions : List ObjectVersion
  deleteMarkers : List ObjectVersion
  isTruncated : Option Bool
  nextKeyMarker : Option String
deriving DecidableEq

/-- types.CreateBucketConfiguration with its LocationConstraint. -/
structure CreateBucketConfiguration where
  locationConstraint : String
deriving DecidableEq

/-- s3.CreateBucketInput: the fields CreateS3BucketE sets. ObjectOwnership is a
string-typed enum in the SDK; types.ObjectOwnershipObjectWriter is the constant
string ObjectWriter. -/
structure CreateBucketInput where
  bucket : Option String
  objectOwnership : String
  createBucketConfiguration : Option CreateBucketConfiguration
deriving DecidableEq

/-- One storage SDK call, with the payload the claims talk about. -/
inductive SdkCall where
  | listBuckets : SdkCall
  | getBucketTagging : Option String → SdkCall
  | getObject : SdkCall
  | putObject : SdkCall
  | createBucket : CreateBucketInput → SdkCall
  | putBucketPolicy : SdkCall
  | putBucketVersioning : SdkCall
  | deleteBucket : SdkCall
  | listObjectVersions : Option String → SdkCall
  | deleteObjects : List ObjectIdentifier → SdkCall
  | getBucketLogging : SdkCall
  | getBucketVersioning : SdkCall
  | getBucketPolicy : SdkCall
  | getBucketOwnershipControls : SdkCall
  | headBucket : SdkCall
deriving DecidableEq

/-- Outcome of Go code that either finishes with a value or dereferences nil. -/
inductive GoResult (α : Type) where
  | ok : α → GoResult α
  | panicked : GoResult α
deriving DecidableEq

/-- Outcome of calling a helper under the test-failing wrapper: the wrapper
either returns the twin value, aborts the test via require.NoError, panics,
or (an artefact of fuel-based modelling) runs out of fuel. -/
inductive TestResult (α : Type) where
  | returned : α → TestResult α
  | failedTest : TestResult α
  | panicked : TestResult α
  | diverged : TestResult α
deriving DecidableEq

/-! ## FindS3BucketWithTagE -/

/-- Environment for FindS3BucketWithTagE: client construction, ListBuckets and
GetBucketTagging keyed by the bucket Name pointer. Each SDK call returns a
response pointer (possibly nil) together with an error. -/
structure FindEnv where
  clientErr : Option String
  listBuckets : Except String (List Bucket)
  getBucketTagging : Option String → (Option GetBucketTaggingOutput) × Option String

/-- The inner for-range over tagResponse.TagSet in FindS3BucketWithTagE
(lines 57 to 62): compare star tag.Key with key and, on a key match,
star tag.Value with value; a full match dereferences bucket.Name and returns
it. A nil Key, a nil Value behind a matching key, or a nil bucket Name on the
match path is a nil-pointer dereference. -/
def scanTagSet (key value : String) (bname : Option String) : List Tag → GoResult (Option String)
  | [] => .ok none
  | t :: rest =>
    match t.key with
    | none => .panicked
    | some k =>
      if k = key then
        match t.value with
        | none => .panicked
        | some v =>
          if v = value then
            match bname with
            | none => .panicked
            | some n => .ok (some n)
          else scanTagSet key value bname rest
      else scanTagSet key value bname rest

/-- The per-bucket loop of FindS3BucketWithTagE (lines 39 to 63). For each
bucket it calls GetBucketTagging; on an error containing NoSuchBucket the
bucket is skipped; on an error containing none of AuthorizationHeaderMalformed,
BucketRegionError, NoSuchTagSet it returns that error; otherwise (including
those three tolerated errors) execution falls through to the TagSet iteration,
which dereferences the response pointer. -/
def findLoop (env : FindEnv) (key value : String) :
    List Bucket → GoResult (String × Option String) × List SdkCall
  | [] => (.ok ("", none), [])
  | b :: rest =>
    let tagResponse := (env.getBucketTagging b.name).1
    let err := (env.getBucketTagging b.name).2
    let call := SdkCall.getBucketTagging b.name
    let fallThrough : GoResult (String × Option String) × List SdkCall :=
      match tagResponse with
      | none => (.panicked, [call])
      | some resp =>
        match scanTagSet key value b.name resp.tagSet with
        | .panicked => (.panicked, [call])
        | .ok (some n) => (.ok (n, none), [call])
        | .ok none =>
          let r := findLoop env key value rest
          (r.1, call :: r.2)
    match err with
    | some e =>
      if errContains e "NoSuchBucket" then
        let r := findLoop env key value rest
        (r.1, call :: r.2)
      else
        if !errContains e "AuthorizationHeaderMalformed" &&
           !errContains e "BucketRegionError" &&
           !errContains e "NoSuchTagSet" then
          (.ok ("", some e), [call])
        else fallThrough
    | none => fallThrough

/-- FindS3BucketWithTagE (lines 28 to 66): build the client, list the buckets
and run the per-bucket loop; not finding any match returns the empty string
with a nil error. -/
def FindS3BucketWithTagE (env : FindEnv) (key value : String) :
    GoResult (String × Option String) × List SdkCall :=
  match env.clientErr with
  | some e => (.ok ("", some e), [])
  | none =>
    match env.listBuckets with
    | .error e => (.ok ("", some e), [.listBuckets])
    | .ok buckets =>
      let r := findLoop env key value buckets
      (r.1, .listBuckets :: r.2)

/-! ## GetS3BucketTagsE -/

/-- A Go map of strings is modelled by its write history (in write order);
a lookup returns the value of the last write to the key. -/
def goMapGet : List (String × String) → String → Option String
  | [], _ => none
  | (k, v) :: rest, q =>
    match goMapGet rest q with
    | some r => some r
    | none => if k = q then some v else none

/-- The marshalling loop of GetS3BucketTagsE (lines 90 to 93): every tag of the
TagSet is written into the map in order, keys and values dereferenced with
aws.ToString. -/
def buildTags (ts : List Tag) : List (String × String) :=
  ts.map fun t => (awsToString t.key, awsToString t.value)

/-- Environment for GetS3BucketTagsE: client construction and one
GetBucketTagging call on the given bucket. -/
structure TagsEnv where
  clientErr : Option String
  getBucketTagging : (Option GetBucketTaggingOutput) × Option String

/-- GetS3BucketTagsE (lines 77 to 96): on an SDK error it returns the nil map
together with the error, otherwise it marshals the TagSet into a map. Reading
out.TagSet dereferences the response pointer. -/
def GetS3BucketTagsE (env : TagsEnv) :
    GoResult (Option (List (String × String)) × Option String) × List SdkCall :=
  match env.clientErr with
  | some e => (.ok (none, some e), [])
  | none =>
    match (env.getBucketTagging).2 with
    | some e => (.ok (none, some e), [.getBucketTagging none])
    | none =>
      match (env.getBucketTagging).1 with
      | none => (.panicked, [.getBucketTagging none])
      | some out => (.ok (some (buildTags out.tagSet), none), [.getBucketTagging none])

/-! ## GetS3ObjectContentsE -/

/-- s3.GetObjectOutput as read by GetS3ObjectContentsE: the Body stream,
modelled by the outcome of reading it to the end. -/
structure GetObjectOutput where
  readBody : Except String String

/-- Environment for GetS3ObjectContentsE. -/
structure ObjectEnv where
  clientErr : Option String
  getObject : (Option GetObjectOutput) × Option String

/-- GetS3ObjectContentsE (lines 107 to 132): on a GetObject error it returns
the empty string with the error; otherwise it reads the body (whose read may
itself fail) and returns the contents. Reading res.Body dereferences the
response pointer. -/
def GetS3ObjectContentsE (env : ObjectEnv) :
    GoResult (String × Option String) × List SdkCall :=
  match env.clientErr with
  | some e => (.ok ("", some e), [])
  | none =>
    match (env.getObject).2 with
    | some e => (.ok ("", some e), [.getObject])
    | none =>
      match (env.getObject).1 with
      | none => (.panicked, [.getObject])
      | some out =>
        match out.readBody with
        | .error e => (.ok ("", some e), [.getObject])
        | .ok contents => (.ok (contents, none), [.getObject])

/-! ## PutS3ObjectContentsE -/

/-- Environment for PutS3ObjectContentsE. -/
structure PutObjectEnv where
  clientErr : Option String
  putObject : Option String

/-- PutS3ObjectContentsE (lines 141 to 155): a client-construction error is
wrapped by fmt.Errorf; the PutObject error is returned as is. -/
def PutS3ObjectContentsE (env : PutObjectEnv) : Option String × List SdkCall :=
  match env.clientErr with
  | some e => (some ("failed to instantiate s3 client: " ++ e), [])
  | none => (env.putObject, [.putObject])

/-! ## CreateS3BucketE -/

/-- The params construction of CreateS3BucketE (lines 172 to 181): the
ObjectOwnership field is always ObjectWriter, and a CreateBucketConfiguration
carrying the region as LocationConstraint is attached exactly when the region
differs from us-east-1. -/
def buildCreateBucketInput (region name : String) : CreateBucketInput :=
  let params : CreateBucketInput :=
    { bucket := some name, objectOwnership := "ObjectWriter",
      createBucketConfiguration := none }
  if region ≠ "us-east-1" then
    { params with createBucketConfiguration := some { locationConstraint := region } }
  else params

/-- Environment for CreateS3BucketE. -/
structure CreateEnv where
  clientErr : Option String
  createBucket : CreateBucketInput → Option String

/-- CreateS3BucketE (lines 164 to 185): build the params and issue one
CreateBucket call. -/
def CreateS3BucketE (env : CreateEnv) (region name : String) :
    Option String × List SdkCall :=
  match env.clientErr with
  | some e => (some e, [])
  | none =>
    let params := buildCreateBucketInput region name
    (env.createBucket params, [.createBucket params])

/-! ## PutS3BucketPolicyE, PutS3BucketVersioningE, DeleteS3BucketE,
AssertS3BucketExistsE -/

/-- Environment for PutS3BucketPolicyE. -/
structure PutPolicyEnv where
  clientErr : Option String
  putBucketPolicy : Option String

/-- PutS3BucketPolicyE (lines 194 to 209): one PutBucketPolicy call, error
returned as is. -/
def PutS3BucketPolicyE (env : PutPolicyEnv) : Option String × List SdkCall :=
  match env.clientErr with
  | some e => (some e, [])
  | none => (env.putBucketPolicy, [.putBucketPolicy])

/-- Environment for PutS3BucketVersioningE. -/
structure PutVersioningEnv where
  clientErr : Option String
  putBucketVersioning : Option String

/-- PutS3BucketVersioningE (lines 218 to 236): one PutBucketVersioning call,
error returned as is. -/
def PutS3BucketVersioningE (env : PutVersioningEnv) : Option String × List SdkCall :=
  match env.clientErr with
  | some e => (some e, [])
  | none => (env.putBucketVersioning, [.putBucketVersioning])

/-- Environment for DeleteS3BucketE. -/
structure DeleteBucketEnv where
  clientErr : Option String
  deleteBucket : Option String

/-- DeleteS3BucketE (lines 245 to 258): one DeleteBucket call, error returned
as is. -/
def DeleteS3BucketE (env : DeleteBucketEnv) : Option String × List SdkCall :=
  match env.clientErr with
  | some e => (some e, [])
  | none => (env.deleteBucket, [.deleteBucket])

/-- Environment for AssertS3BucketExistsE. -/
structure HeadBucketEnv where
  clientErr : Option String
  headBucket : Option String

/-- AssertS3BucketExistsE (lines 481 to 492): one HeadBucket call, error
returned as is. -/
def AssertS3BucketExistsE (env : HeadBucketEnv) : Option String × List SdkCall :=
  match env.clientErr with
  | some e => (some e, [])
  | none => (env.headBucket, [.headBucket])

/-! ## Logging, versioning, policy and ownership getters -/

/-- types.LoggingEnabled: the fields the logging getters read. -/
structure LoggingEnabled where
  targetBucket : Option String
  targetPrefixVal : Option String
deriving DecidableEq

/-- s3.GetBucketLoggingOutput: the LoggingEnabled pointer. -/
structure GetBucketLoggingOutput where
  loggingEnabled : Option LoggingEnabled
deriving DecidableEq

/-- Environment for the two logging getters. -/
structure LoggingEnv where
  clientErr : Option String
  getBucketLogging : (Option GetBucketLoggingOutput) × Option String

/-- S3AccessLoggingNotEnabledErr (lines 567 to 575), rendered as its Error()
message. -/
def S3AccessLoggingNotEnabledErr (originBucket region : String) : String :=
  "Server Acess Logging hasn-t been enabled for S3 Bucket " ++ originBucket ++
    " in region " ++ region

/-- GetS3BucketLoggingTargetE (lines 345 to 364): on success, the TargetBucket
of the LoggingEnabled property; a nil LoggingEnabled yields the
S3AccessLoggingNotEnabledErr error. -/
def GetS3BucketLoggingTargetE (env : LoggingEnv) (bucket region : String) :
    GoResult (String × Option String) × List SdkCall :=
  match env.clientErr with
  | some e => (.ok ("", some e), [])
  | none =>
    match (env.getBucketLogging).2 with
    | some e => (.ok ("", some e), [.getBucketLogging])
    | none =>
      match (env.getBucketLogging).1 with
      | none => (.panicked, [.getBucketLogging])
      | some res =>
        match res.loggingEnabled with
        | none =>
          (.ok ("", some (S3AccessLoggingNotEnabledErr bucket region)), [.getBucketLogging])
        | some le => (.ok (awsToString le.targetBucket, none), [.getBucketLogging])

/-- GetS3BucketLoggingTargetPrefixE (lines 376 to 395): same shape as the
target getter, returning the TargetPrefix instead. -/
def GetS3BucketLoggingTargetPrefixE (env : LoggingEnv) (bucket region : String) :
    GoResult (String × Option String) × List SdkCall :=
  match env.clientErr with
  | some e => (.ok ("", some e), [])
  | none =>
    match (env.getBucketLogging).2 with
    | some e => (.ok ("", some e), [.getBucketLogging])
    | none =>
      match (env.getBucketLogging).1 with
      | none => (.panicked, [.getBucketLogging])
      | some res =>
        match res.loggingEnabled with
        | none =>
          (.ok ("", some (S3AccessLoggingNotEnabledErr bucket region)), [.getBucketLogging])
        | some le => (.ok (awsToString le.targetPrefixVal, none), [.getBucketLogging])

/-- s3.GetBucketVersioningOutput: the Status field, a string-typed enum whose
zero value is the empty string. -/
structure GetBucketVersioningOutput where
  status : String
deriving DecidableEq

/-- Environment for GetS3BucketVersioningE. -/
structure VersioningEnv where
  clientErr : Option String
  getBucketVersioning : (Option GetBucketVersioningOutput) × Option String

/-- GetS3BucketVersioningE (lines 406 to 420): one GetBucketVersioning call,
returning string(res.Status). -/
def GetS3BucketVersioningE (env : VersioningEnv) :
    GoResult (String × Option String) × List SdkCall :=
  match env.clientErr with
  | some e => (.ok ("", some e), [])
  | none =>
    match (env.getBucketVersioning).2 with
    | some e => (.ok ("", some e), [.getBucketVersioning])
    | none =>
      match (env.getBucketVersioning).1 with
      | none => (.panicked, [.getBucketVersioning])
      | some res => (.ok (res.status, none), [.getBucketVersioning])

/-- s3.GetBucketPolicyOutput: the Policy string pointer. -/
structure GetBucketPolicyOutput where
  policy : Option String
deriving DecidableEq

/-- Environment for GetS3BucketPolicyE. -/
structure PolicyEnv where
  clientErr : Option String
  getBucketPolicy : (Option GetBucketPolicyOutput) × Option String

/-- GetS3BucketPolicyE (lines 431 to 445): one GetBucketPolicy call, returning
aws.ToString(res.Policy). -/
def GetS3BucketPolicyE (env : PolicyEnv) :
    GoResult (String × Option String) × List SdkCall :=
  match env.clientErr with
  | some e => (.ok ("", some e), [])
  | none =>
    match (env.getBucketPolicy).2 with
    | some e => (.ok ("", some e), [.getBucketPolicy])
    | none =>
      match (env.getBucketPolicy).1 with
      | none => (.panicked, [.getBucketPolicy])
      | some res => (.ok (awsToString res.policy, none), [.getBucketPolicy])

/-- types.OwnershipControlsRule: the ObjectOwnership enum as a string. -/
structure OwnershipControlsRule where
  objectOwnership : String
deriving DecidableEq

/-- types.OwnershipControls: the Rules slice. -/
structure OwnershipControls where
  rules : List OwnershipControlsRule
deriving DecidableEq

/-- s3.GetBucketOwnershipControlsOutput: the OwnershipControls pointer. -/
structure GetBucketOwnershipControlsOutput where
  ownershipControls : Option OwnershipControls
deriving DecidableEq

/-- Environment for GetS3BucketOwnershipControlsE. -/
structure OwnershipEnv where
  clientErr : Option String
  getBucketOwnershipControls : (Option GetBucketOwnershipControlsOutput) × Option String

/-- GetS3BucketOwnershipControlsE (lines 454 to 472): one
GetBucketOwnershipControls call; out.OwnershipControls.Rules dereferences both
the response pointer and the OwnershipControls pointer. -/
def GetS3BucketOwnershipControlsE (env : OwnershipEnv) :
    GoResult (Option (List String) × Option String) × List SdkCall :=
  match env.clientErr with
  | some e => (.ok (none, some e), [])
  | none =>
    match (env.getBucketOwnershipControls).2 with
    | some e => (.ok (none, some e), [.getBucketOwnershipControls])
    | none =>
      match (env.getBucketOwnershipControls).1 with
      | none => (.panicked, [.getBucketOwnershipControls])
      | some out =>
        match out.ownershipControls with
        | none => (.panicked, [.getBucketOwnershipControls])
        | some oc =>
          (.ok (some (oc.rules.map fun r => r.objectOwnership), none),
            [.getBucketOwnershipControls])

/-! ## The two Assert helpers that delegate to a getter -/

/-- Modelled from the spec: NewBucketVersioningNotEnabledError is defined in a
repository file outside the provided source. No claim depends on its content;
it is modelled as a fixed error message built from its arguments. -/
def NewBucketVersioningNotEnabledError (bucketName region status : String) : String :=
  "bucket versioning not enabled for " ++ bucketName ++ " in " ++ region ++
    " with status " ++ status

/-- Modelled from the spec: NewNoBucketPolicyError is defined in a repository
file outside the provided source. No claim depends on its content; it is
modelled as a fixed error message built from its arguments. -/
def NewNoBucketPolicyError (bucketName region policy : String) : String :=
  "no bucket policy for " ++ bucketName ++ " in " ++ region ++ ": " ++ policy

/-- AssertS3BucketVersioningExistsE (lines 501 to 511): delegate to
GetS3BucketVersioningE, then succeed exactly on the Enabled status. -/
def AssertS3BucketVersioningExistsE (env : VersioningEnv) (region bucketName : String) :
    GoResult (Option String) × List SdkCall :=
  match GetS3BucketVersioningE env with
  | (.panicked, tr) => (.panicked, tr)
  | (.ok (_, some e), tr) => (.ok (some e), tr)
  | (.ok (status, none), tr) =>
    if status = "Enabled" then (.ok none, tr)
    else (.ok (some (NewBucketVersioningNotEnabledError bucketName region status)), tr)

/-- AssertS3BucketPolicyExistsE (lines 520 to 530): delegate to
GetS3BucketPolicyE, then fail exactly on an empty policy. -/
def AssertS3BucketPolicyExistsE (env : PolicyEnv) (region bucketName : String) :
    GoResult (Option String) × List SdkCall :=
  match GetS3BucketPolicyE env with
  | (.panicked, tr) => (.panicked, tr)
  | (.ok (_, some e), tr) => (.ok (some e), tr)
  | (.ok (policy, none), tr) =>
    if policy = "" then (.ok (some (NewNoBucketPolicyError bucketName region policy)), tr)
    else (.ok none, tr)

/-! ## EmptyS3BucketE -/

/-- How a run of the EmptyS3BucketE loop ends: the function returns nil,
returns an error, dereferences a nil pointer, or (a fuel artefact standing
for divergence) never finishes. -/
inductive EmptyStatus where
  | retNil : EmptyStatus
  | retErr : String → EmptyStatus
  | panicked : EmptyStatus
  | outOfFuel : EmptyStatus
deriving DecidableEq

/-- Environment for EmptyS3BucketE over an abstract object-store state. The
ListObjectVersions call depends on the current store state and the KeyMarker
of the request; DeleteObjects transforms the store state. -/
structure EmptyEnv (σ : Type) where
  clientErr : Option String
  listObjectVersions : σ → Option String → Except String ListObjectVersionsOutput
  deleteObjects : σ → List ObjectIdentifier → Except String σ

/-- The bulk-delete payload built in lines 293 to 308: one ObjectIdentifier
per listed version, then one per listed delete marker. -/
def idsOf (out : ListObjectVersionsOutput) : List ObjectIdentifier :=
  (out.versions.map fun v => { key := v.key, versionId := v.versionId }) ++
    (out.deleteMarkers.map fun m => { key := m.key, versionId := m.versionId })

/-- The for-loop of EmptyS3BucketE (lines 279 to 330), with fuel bounding the
number of iterations. Each iteration lists object versions with the current
KeyMarker, returns nil when the listing has no Versions, otherwise issues one
DeleteObjects call with the listed versions and delete markers; it then
continues with KeyMarker set to NextKeyMarker when star IsTruncated is true
and breaks otherwise. Dereferencing a nil IsTruncated, or logging a nil
NextKeyMarker after a truncated listing, is a panic. The result carries the
final store state and the trace of SDK calls. -/
def emptyLoop {σ : Type} (env : EmptyEnv σ) :
    Nat → σ → Option String → EmptyStatus × σ × List SdkCall
  | 0, s, _ => (.outOfFuel, s, [])
  | fuel + 1, s, km =>
    match env.listObjectVersions s km with
    | .error e => (.retErr e, s, [.listObjectVersions km])
    | .ok out =>
      if out.versions.length = 0 then (.retNil, s, [.listObjectVersions km])
      else
        match env.deleteObjects s (idsOf out) with
        | .error e => (.retErr e, s, [.listObjectVersions km, .deleteObjects (idsOf out)])
        | .ok s2 =>
          match out.isTruncated with
          | none => (.panicked, s2, [.listObjectVersions km, .deleteObjects (idsOf out)])
          | some true =>
            match out.nextKeyMarker with
            | none =>
              (.panicked, s2, [.listObjectVersions km, .deleteObjects (idsOf out)])
            | some nk =>
              let r := emptyLoop env fuel s2 (some nk)
              (r.1, r.2.1, .listObjectVersions km :: .deleteObjects (idsOf out) :: r.2.2)
          | some false =>
            (.retNil, s2, [.listObjectVersions km, .deleteObjects (idsOf out)])

/-- EmptyS3BucketE (lines 267 to 333): build the client and run the loop with
an initially unset KeyMarker; after the loop breaks, the function returns the
nil error of the surrounding scope. -/
def EmptyS3BucketE {σ : Type} (env : EmptyEnv σ) (fuel : Nat) (s : σ) :
    EmptyStatus × σ × List SdkCall :=
  match env.clientErr with
  | some e => (.retErr e, s, [])
  | none => emptyLoop env fuel s none

/-- One continuing iteration of the EmptyS3BucketE loop, as a relation on
(store state, KeyMarker) pairs: the listing succeeded with a non-empty
Versions slice, the bulk delete succeeded, the listing was truncated, and the
next iteration starts from the new store state with the NextKeyMarker. -/
def emptyStep {σ : Type} (env : EmptyEnv σ) (p q : σ × Option String) : Prop :=
  ∃ out s2, env.listObjectVersions p.1 p.2 = .ok out ∧ out.versions ≠ [] ∧
    env.deleteObjects p.1 (idsOf out) = .ok s2 ∧ out.isTruncated = some true ∧
    ∃ nk, out.nextKeyMarker = some nk ∧ q = (s2, some nk)

/-! ## Test-failing wrappers

Each non-E helper calls its E twin, passes the error to require.NoError,
which aborts the test on a non-nil error, and returns the twin value
otherwise. The three combinators below are the shapes this takes for twins
returning (value, error), twins returning only an error, and twins returning
only an error inside a GoResult. -/

/-- Calling require.NoError on the error component of a (value, error) twin
result and returning the value. -/
def requireWrap {α : Type} : GoResult (α × Option String) → TestResult α
  | .panicked => .panicked
  | .ok (_, some _) => .failedTest
  | .ok (v, none) => .returned v

/-- Calling require.NoError on an error-only twin result. -/
def requireWrapErr : Option String → TestResult Unit
  | some _ => .failedTest
  | none => .returned ()

/-- Calling require.NoError on an error-only twin result inside a GoResult. -/
def requireWrapErrG : GoResult (Option String) → TestResult Unit
  | .panicked => .panicked
  | .ok (some _) => .failedTest
  | .ok none => .returned ()

/-- FindS3BucketWithTag (lines 20 to 25). -/
def FindS3BucketWithTag (env : FindEnv) (key value : String) : TestResult String :=
  requireWrap (FindS3BucketWithTagE env key value).1

/-- GetS3BucketTags (lines 69 to 74). -/
def GetS3BucketTags (env : TagsEnv) : TestResult (Option (List (String × String))) :=
  requireWrap (GetS3BucketTagsE env).1

/-- GetS3ObjectContents (lines 99 to 104). -/
def GetS3ObjectContents (env : ObjectEnv) : TestResult String :=
  requireWrap (GetS3ObjectContentsE env).1

/-- PutS3ObjectContents (lines 135 to 138). -/
def PutS3ObjectContents (env : PutObjectEnv) : TestResult Unit :=
  requireWrapErr (PutS3ObjectContentsE env).1

/-- CreateS3Bucket (lines 158 to 161). -/
def CreateS3Bucket (env : CreateEnv) (region name : String) : TestResult Unit :=
  requireWrapErr (CreateS3BucketE env region name).1

/-- PutS3BucketPolicy (lines 188 to 191). -/
def PutS3BucketPolicy (env : PutPolicyEnv) : TestResult Unit :=
  requireWrapErr (PutS3BucketPolicyE env).1

/-- PutS3BucketVersioning (lines 212 to 215). -/
def PutS3BucketVersioning (env : PutVersioningEnv) : TestResult Unit :=
  requireWrapErr (PutS3BucketVersioningE env).1

/-- DeleteS3Bucket (lines 239 to 242). -/
def DeleteS3Bucket (env : DeleteBucketEnv) : TestResult Unit :=
  requireWrapErr (DeleteS3BucketE env).1

/-- EmptyS3Bucket (lines 261 to 264). -/
def EmptyS3Bucket {σ : Type} (env : EmptyEnv σ) (fuel : Nat) (s : σ) : TestResult Unit :=
  match (EmptyS3BucketE env fuel s).1 with
  | .retNil => .returned ()
  | .retErr _ => .failedTest
  | .panicked => .panicked
  | .outOfFuel => .diverged

/-- GetS3BucketLoggingTarget (lines 336 to 341). -/
def GetS3BucketLoggingTarget (env : LoggingEnv) (bucket region : String) : TestResult String :=
  requireWrap (GetS3BucketLoggingTargetE env bucket region).1

/-- GetS3BucketVersioning (lines 398 to 403). -/
def GetS3BucketVersioning (env : VersioningEnv) : TestResult String :=
  requireWrap (GetS3BucketVersioningE env).1

/-- GetS3BucketPolicy (lines 423 to 428). -/
def GetS3BucketPolicy (env : PolicyEnv) : TestResult String :=
  requireWrap (GetS3BucketPolicyE env).1

/-- GetS3BucketOwnershipControls (lines 447 to 452). -/
def GetS3BucketOwnershipControls (env : OwnershipEnv) :
    TestResult (Option (List String)) :=
  requireWrap (GetS3BucketOwnershipControlsE env).1

/-- AssertS3BucketExists (lines 475 to 478). -/
def AssertS3BucketExists (env : HeadBucketEnv) : TestResult Unit :=
  requireWrapErr (AssertS3BucketExistsE env).1

/-- AssertS3BucketVersioningExists (lines 495 to 498). -/
def AssertS3BucketVersioningExists (env : VersioningEnv) (region bucketName : String) :
    TestResult Unit :=
  requireWrapErrG (AssertS3BucketVersioningExistsE env region bucketName).1

/-- AssertS3BucketPolicyExists (lines 514 to 517). -/
def AssertS3BucketPolicyExists (env : PolicyEnv) (region bucketName : String) :
    TestResult Unit :=
  requireWrapErrG (AssertS3BucketPolicyExistsE env region bucketName).1

/-! ## NewS3ClientE and NewS3UploaderE -/

/-- Model of the authenticated AWS session configuration returned by
NewAuthenticatedSession; its content is irrelevant to the helpers. -/
structure AwsConfig where
  region : String
deriving DecidableEq

/-- Model of an s3.Client as the configuration it was built from. -/
structure S3Client where
  config : AwsConfig
deriving DecidableEq

/-- Model of a manager.Uploader as the client it wraps. -/
structure S3Uploader where
  client : S3Client
deriving DecidableEq

/-- Environment for the client constructors. NewAuthenticatedSession is
defined in a repository file outside the provided source; it is modelled as
an environment field that either yields a session configuration or fails. -/
structure ClientEnv where
  newAuthenticatedSession : Except String AwsConfig

/-- s3.NewFromConfig (SDK): builds a client from a session configuration. -/
def s3NewFromConfig (sess : AwsConfig) : S3Client := { config := sess }

/-- manager.NewUploader (SDK): builds an uploader over a client. -/
def managerNewUploader (c : S3Client) : S3Uploader := { client := c }

/-- NewS3ClientE (lines 541 to 548): a session error is returned with a nil
client, otherwise the client built from the session. -/
def NewS3ClientE (env : ClientEnv) : Option S3Client × Option String :=
  match env.newAuthenticatedSession with
  | .error e => (none, some e)
  | .ok sess => (some (s3NewFromConfig sess), none)

/-- NewS3UploaderE (lines 558 to 565): a session error is returned with a nil
uploader, otherwise the uploader over the client built from the session. -/
def NewS3UploaderE (env : ClientEnv) : Option S3Uploader × Option String :=
  match env.newAuthenticatedSession with
  | .error e => (none, some e)
  | .ok sess => (some (managerNewUploader (s3NewFromConfig sess)), none)

/-- Calling require.NoError on the error component of a plain (value, error)
pair and returning the value. -/
def requireWrapPair {α : Type} : α × Option String → TestResult α
  | (_, some _) => .failedTest
  | (v, none) => .returned v

/-- GetS3BucketLoggingTargetPrefix (lines 367 to 372). -/
def GetS3BucketLoggingTargetPrefix (env : LoggingEnv) (bucket region : String) :
    TestResult String :=
  requireWrap (GetS3BucketLoggingTargetPrefixE env bucket region).1

/-- NewS3Client (lines 533 to 538). -/
def NewS3Client (env : ClientEnv) : TestResult (Option S3Client) :=
  requireWrapPair (NewS3ClientE env)

/-- NewS3Uploader (lines 551 to 555). -/
def NewS3Uploader (env : ClientEnv) : TestResult (Option S3Uploader) :=
  requireWrapPair (NewS3UploaderE env)

/-! ## Helper lemmas -/

/-- find? distributes over append, first list first. -/
theorem find?_append_eq {α : Type} (p : α → Bool) (xs ys : List α) :
    (xs ++ ys).find? p =
      match xs.find? p with
      | some a => some a
      | none => ys.find? p := by
  induction xs with
  | nil => simp
  | cons x xs ih =>
    by_cases h : p x = true
    · simp [List.find?, h]
    · simp only [List.cons_append, List.find?, h]
      exact ih

/-- Last-write-wins lookup: goMapGet finds the value of the latest write. -/
theorem goMapGet_eq_reverse_find (l : List (String × String)) (q : String) :
    goMapGet l q = (l.reverse.find? fun p => p.1 = q).map Prod.snd := by
  induction l with
  | nil => simp [goMapGet]
  | cons kv rest ih =>
    obtain ⟨k, v⟩ := kv
    simp only [goMapGet, List.reverse_cons, find?_append_eq, ih]
    cases hfind : rest.reverse.find? fun p => p.1 = q with
    | some r => simp
    | none =>
      by_cases hk : k = q
      · simp [List.find?, hk]
      · simp [List.find?, hk]

/-- The failing wrapper on a (value, error) twin: the test fails exactly when
the twin returned a non-nil error, and a twin value returned without error is
passed through unchanged. -/
theorem requireWrap_spec {α : Type} (r : GoResult (α × Option String)) :
    (requireWrap r = .failedTest ↔ ∃ v e, r = .ok (v, some e)) ∧
    ∀ v, r = .ok (v, none) → requireWrap r = .returned v := by
  constructor
  · constructor
    · intro h
      match r with
      | .panicked => simp [requireWrap] at h
      | .ok (v, some e) => exact ⟨v, e, rfl⟩
      | .ok (v, none) => simp [requireWrap] at h
    · rintro ⟨v, e, rfl⟩
      rfl
  · rintro v rfl
    rfl

/-- The failing wrapper on an error-only twin. -/
theorem requireWrapErr_spec (r : Option String) :
    (requireWrapErr r = .failedTest ↔ ∃ e, r = some e) ∧
    (r = none → requireWrapErr r = .returned ()) := by
  constructor
  · constructor
    · intro h
      match r with
      | some e => exact ⟨e, rfl⟩
      | none => simp [requireWrapErr] at h
    · rintro ⟨e, rfl⟩
      rfl
  · rintro rfl
    rfl

/-- The failing wrapper on a plain (value, error) twin result. -/
theorem requireWrapPair_spec {α : Type} (r : α × Option String) :
    (requireWrapPair r = .failedTest ↔ ∃ v e, r = (v, some e)) ∧
    ∀ v, r = (v, none) → requireWrapPair r = .returned v := by
  constructor
  · constructor
    · intro h
      match r with
      | (v, some e) => exact ⟨v, e, rfl⟩
      | (v, none) => simp [requireWrapPair] at h
    · rintro ⟨v, e, rfl⟩
      rfl
  · rintro v rfl
    rfl

/-- The failing wrapper on an error-only twin inside a GoResult. -/
theorem requireWrapErrG_spec (r : GoResult (Option String)) :
    (requireWrapErrG r = .failedTest ↔ ∃ e, r = .ok (some e)) ∧
    (r = .ok none → requireWrapErrG r = .returned ()) := by
  constructor
  · constructor
    · intro h
      match r with
      | .panicked => simp [requireWrapErrG] at h
      | .ok (some e) => exact ⟨e, rfl⟩
      | .ok none => simp [requireWrapErrG] at h
    · rintro ⟨e, rfl⟩
      rfl
  · rintro rfl
    rfl

/-! ## Claim C10 -/

/-- C10: CreateS3BucketE always sets ObjectOwnership to ObjectWriter in the
CreateBucket request, and attaches a CreateBucketConfiguration whose
LocationConstraint equals the given region exactly when the region is not
us-east-1; for us-east-1 no CreateBucketConfiguration is sent. The request the
function issues is exactly the constructed one. -/
theorem C10_create_bucket_params (region name : String) :
    (buildCreateBucketInput region name).objectOwnership = "ObjectWriter" ∧
    (buildCreateBucketInput region name).bucket = some name ∧
    (buildCreateBucketInput region name).createBucketConfiguration =
      (if region = "us-east-1" then none
       else some { locationConstraint := region }) ∧
    ∀ env : CreateEnv,
      (CreateS3BucketE { env with clientErr := none } region name).2 =
        [.createBucket (buildCreateBucketInput region name)] := by
  by_cases h : region = "us-east-1" <;>
    simp [buildCreateBucketInput, CreateS3BucketE, h]

/-! ## Claim C8 -/

/-- A model in which the single listed bucket has no tag set: GetBucketTagging
returns a nil response together with a NoSuchTagSet error, as the AWS SDK v2
does on every operation error. -/
def fenvC8 : FindEnv :=
  { clientErr := none,
    listBuckets := .ok [{ name := some "bucket-a" }],
    getBucketTagging := fun _ =>
      (none, some "NoSuchTagSet: The TagSet does not exist") }

/-- C8: the claim fails on the code. On a NoSuchTagSet error the loop body
falls through to the iteration over tagResponse.TagSet with tagResponse nil,
so FindS3BucketWithTagE dereferences a nil tagging response and panics. -/
theorem C8_nil_tag_response_deref :
    FindS3BucketWithTagE fenvC8 "team" "dev" =
      (.panicked, [.listBuckets, .getBucketTagging (some "bucket-a")]) ∧
    (fenvC8.getBucketTagging (some "bucket-a")).1 = none ∧
    errContains "NoSuchTagSet: The TagSet does not exist" "NoSuchTagSet" = true := by
  refine ⟨?_, rfl, ?_⟩ <;> rfl

/-! ## Claim C1 -/

/-- A model of a versioned bucket holding only a delete marker: the store
state is the pair (versions, delete markers), ListObjectVersions reports all
of them in one untruncated page and DeleteObjects removes the identified
entries. -/
def envC1 : EmptyEnv (List ObjectVersion × List ObjectVersion) :=
  { clientErr := none,
    listObjectVersions := fun s _ =>
      .ok { versions := s.1, deleteMarkers := s.2,
            isTruncated := some false, nextKeyMarker := none },
    deleteObjects := fun s objs =>
      .ok (s.1.filter fun v =>
             !(objs.contains { key := v.key, versionId := v.versionId }),
           s.2.filter fun m =>
             !(objs.contains { key := m.key, versionId := m.versionId })) }

/-- The initial store of envC1: no versions, one delete marker. -/
def s0C1 : List ObjectVersion × List ObjectVersion :=
  ([], [{ key := some "obj", versionId := some "dm1" }])

/-- C1: the code contradicts the claim at a bucket holding only a delete
marker. The listing has zero Versions and a non-empty DeleteMarkers list, so
EmptyS3BucketE returns nil at once, and the delete marker is still in the
bucket afterwards. -/
theorem C1_empty_bucket_keeps_delete_markers :
    (EmptyS3BucketE envC1 1 s0C1).1 = .retNil ∧
    (EmptyS3BucketE envC1 1 s0C1).2.1.2 =
      [{ key := some "obj", versionId := some "dm1" }] ∧
    envC1.listObjectVersions s0C1 none =
      .ok { versions := [],
            deleteMarkers := [{ key := some "obj", versionId := some "dm1" }],
            isTruncated := some false, nextKeyMarker := none } := by
  refine ⟨rfl, rfl, rfl⟩

/-! ## Claim C3, counterexample part -/

/-- A model of a bucket with one object version, listed in one untruncated
page; the bulk delete empties the store. -/
def envC3 : EmptyEnv (List ObjectVersion) :=
  { clientErr := none,
    listObjectVersions := fun s _ =>
      .ok { versions := s, deleteMarkers := [],
            isTruncated := some false, nextKeyMarker := none },
    deleteObjects := fun _ _ => .ok [] }

/-- The initial store of envC3: one object version. -/
def s0C3 : List ObjectVersion := [{ key := some "obj", versionId := some "v1" }]

/-- C3 counterexample: EmptyS3BucketE is an E-suffixed operation, yet on a
bucket with one object version it issues two SDK calls beyond client
construction, a ListObjectVersions and a DeleteObjects, not exactly one. -/
theorem C3_not_single_call_cex :
    (EmptyS3BucketE envC3 2 s0C3).2.2 =
      [.listObjectVersions none,
       .deleteObjects [{ key := some "obj", versionId := some "v1" }]] ∧
    (EmptyS3BucketE envC3 2 s0C3).2.2.length ≠ 1 ∧
    (EmptyS3BucketE envC3 2 s0C3).1 = .retNil := by
  refine ⟨rfl, by decide, rfl⟩

/-! ## Claim C7 -/

/-- C7: GetS3BucketTagsE marshals a successful GetBucketTagging response into
a string map whose lookup at any key is the value of the last TagSet entry
carrying that key (a later duplicate overwrites an earlier one), and it
returns the nil map together with the error when the SDK call fails. -/
theorem C7_tags_marshalling :
    (∀ (env : TagsEnv) (out : GetBucketTaggingOutput),
      env.clientErr = none → env.getBucketTagging = (some out, none) →
      (GetS3BucketTagsE env).1 = .ok (some (buildTags out.tagSet), none) ∧
      ∀ q, goMapGet (buildTags out.tagSet) q =
        (out.tagSet.reverse.find? fun t => awsToString t.key = q).map
          fun t => awsToString t.value) ∧
    (∀ (env : TagsEnv) (o : Option GetBucketTaggingOutput) (e : String),
      env.clientErr = none → env.getBucketTagging = (o, some e) →
      (GetS3BucketTagsE env).1 = .ok (none, some e)) := by
  constructor
  · intro env out hc ht
    constructor
    · simp [GetS3BucketTagsE, hc, ht]
    · intro q
      rw [goMapGet_eq_reverse_find, buildTags, ← List.map_reverse, List.find?_map]
      rw [Option.map_map]
      rfl
  · intro env o e hc ht
    simp [GetS3BucketTagsE, hc, ht]

/-- Witness for C7 at a response with a duplicate key: the map is built and
its lookup returns the later value. -/
theorem C7_tags_marshalling_witness :
    (GetS3BucketTagsE
        { clientErr := none,
          getBucketTagging :=
            (some { tagSet := [{ key := some "a", value := some "1" },
                               { key := some "a", value := some "2" }] }, none) }).1 =
      .ok (some [("a", "1"), ("a", "2")], none) ∧
    goMapGet [("a", "1"), ("a", "2")] "a" = some "2" := by
  have h := C7_tags_marshalling.1
    { clientErr := none,
      getBucketTagging :=
        (some { tagSet := [{ key := some "a", value := some "1" },
                           { key := some "a", value := some "2" }] }, none) }
    { tagSet := [{ key := some "a", value := some "1" },
                 { key := some "a", value := some "2" }] } rfl rfl
  exact ⟨h.1, by decide⟩

/-! ## Claim C4 -/

/-- C4: each iteration of the EmptyS3BucketE loop lists object versions with
the current KeyMarker, returns nil at once when the Versions slice of the
listing is empty, otherwise issues exactly one bulk DeleteObjects call whose
payload is every listed version followed by every listed delete marker, then
continues with KeyMarker set to the NextKeyMarker of the listing exactly when
the listing reports IsTruncated true, and exits the loop (returning nil) when
it reports IsTruncated false. A listing error is returned directly. -/
theorem C4_empty_loop_pagination {σ : Type} (env : EmptyEnv σ) (fuel : Nat)
    (s : σ) (km : Option String) :
    (∀ e, env.listObjectVersions s km = .error e →
      emptyLoop env (fuel + 1) s km = (.retErr e, s, [.listObjectVersions km])) ∧
    ∀ out, env.listObjectVersions s km = .ok out →
      (out.versions = [] →
        emptyLoop env (fuel + 1) s km = (.retNil, s, [.listObjectVersions km])) ∧
      (out.versions ≠ [] →
        (∀ e, env.deleteObjects s (idsOf out) = .error e →
          emptyLoop env (fuel + 1) s km =
            (.retErr e, s, [.listObjectVersions km, .deleteObjects (idsOf out)])) ∧
        ∀ s2, env.deleteObjects s (idsOf out) = .ok s2 →
          (out.isTruncated = some false →
            emptyLoop env (fuel + 1) s km =
              (.retNil, s2, [.listObjectVersions km, .deleteObjects (idsOf out)])) ∧
          ∀ nk, out.isTruncated = some true → out.nextKeyMarker = some nk →
            emptyLoop env (fuel + 1) s km =
              ((emptyLoop env fuel s2 (some nk)).1,
               (emptyLoop env fuel s2 (some nk)).2.1,
               .listObjectVersions km :: .deleteObjects (idsOf out) ::
                 (emptyLoop env fuel s2 (some nk)).2.2)) := by
  constructor
  · intro e hlv
    simp [emptyLoop, hlv]
  · intro out hlv
    constructor
    · intro hv
      simp [emptyLoop, hlv, hv]
    · intro hv
      have hlen : ¬ out.versions.length = 0 := by
        simpa [List.length_eq_zero] using hv
      constructor
      · intro e hdel
        simp [emptyLoop, hlv, hlen, hdel]
      · intro s2 hdel
        constructor
        · intro htr
          simp [emptyLoop, hlv, hlen, hdel, htr]
        · intro nk htr hnk
          simp [emptyLoop, hlv, hlen, hdel, htr, hnk]

/-- A model whose single listing is empty and untruncated, used to witness the
pagination theorem. -/
def envC4 : EmptyEnv Unit :=
  { clientErr := none,
    listObjectVersions := fun _ _ =>
      .ok { versions := [], deleteMarkers := [],
            isTruncated := some false, nextKeyMarker := none },
    deleteObjects := fun s _ => .ok s }

/-- Witness for C4: on a model whose listing has no versions, one iteration
returns nil after the single listing call. -/
theorem C4_empty_loop_pagination_witness :
    emptyLoop envC4 1 () none = (.retNil, (), [.listObjectVersions none]) :=
  ((C4_empty_loop_pagination envC4 0 () none).2
    { versions := [], deleteMarkers := [],
      isTruncated := some false, nextKeyMarker := none } rfl).1 rfl

/-! ## Claim C5 -/

/-- C5: whenever every chain of continuing loop iterations out of the starting
configuration is finite (each chain of truncated listings followed via
NextKeyMarker eventually reaches a listing that is untruncated, fails, has no
versions, or cannot be followed), the EmptyS3BucketE loop finishes within some
finite amount of fuel: it performs finitely many iterations. -/
theorem C5_empty_loop_terminates {σ : Type} (env : EmptyEnv σ)
    (p : σ × Option String)
    (h : Acc (fun q p => emptyStep env p q) p) :
    ∃ fuel, (emptyLoop env fuel p.1 p.2).1 ≠ .outOfFuel := by
  induction h with
  | intro x hx ih =>
    rcases hlv : env.listObjectVersions x.1 x.2 with e | out
    · exact ⟨1, by simp [emptyLoop, hlv]⟩
    · by_cases hv : out.versions.length = 0
      · exact ⟨1, by simp [emptyLoop, hlv, hv]⟩
      · rcases hdel : env.deleteObjects x.1 (idsOf out) with e | s2
        · exact ⟨1, by simp [emptyLoop, hlv, hv, hdel]⟩
        · rcases htr : out.isTruncated with _ | b
          · exact ⟨1, by simp [emptyLoop, hlv, hv, hdel, htr]⟩
          · cases b with
            | false => exact ⟨1, by simp [emptyLoop, hlv, hv, hdel, htr]⟩
            | true =>
              rcases hnk : out.nextKeyMarker with _ | nk
              · exact ⟨1, by simp [emptyLoop, hlv, hv, hdel, htr, hnk]⟩
              · have hstep : emptyStep env x (s2, some nk) :=
                  ⟨out, s2, hlv, by simpa [List.length_eq_zero] using hv,
                    hdel, htr, nk, hnk, rfl⟩
                obtain ⟨f, hf⟩ := ih (s2, some nk) hstep
                refine ⟨f + 1, ?_⟩
                simpa [emptyLoop, hlv, hv, hdel, htr, hnk] using hf

/-- A model whose listings never have versions: the loop relation has no step
at all, so every configuration is accessible. -/
def envC5 : EmptyEnv Unit :=
  { clientErr := none,
    listObjectVersions := fun _ _ =>
      .ok { versions := [], deleteMarkers := [],
            isTruncated := some false, nextKeyMarker := none },
    deleteObjects := fun s _ => .ok s }

/-- Witness for C5 at a model with no continuing iteration. -/
theorem C5_empty_loop_terminates_witness :
    ∃ fuel, (emptyLoop envC5 fuel () none).1 ≠ .outOfFuel :=
  C5_empty_loop_terminates envC5 ((), none)
    (Acc.intro _ (fun _ hy => by
      obtain ⟨out, s2, hlv, hne, _⟩ := hy
      simp only [envC5] at hlv
      cases hlv
      simp at hne))

/-! ## Claim C9 -/

/-- A bucket carries no match when every tag has a non-nil key, and any tag
whose key equals the searched key has a non-nil value different from the
searched value. -/
def noTagMatch (key value : String) (ts : List Tag) : Prop :=
  ∀ t ∈ ts, ∃ k, t.key = some k ∧ (k = key → ∃ v, t.value = some v ∧ v ≠ value)

/-- Scanning a tag set with no match returns none without panicking. -/
theorem scanTagSet_no_match (key value : String) (bname : Option String)
    (ts : List Tag) (h : noTagMatch key value ts) :
    scanTagSet key value bname ts = .ok none := by
  induction ts with
  | nil => rfl
  | cons t rest ih =>
    obtain ⟨k, hk, hkv⟩ := h t (by simp)
    have hrest : noTagMatch key value rest := fun u hu => h u (by simp [hu])
    by_cases hkey : k = key
    · obtain ⟨v, hv, hne⟩ := hkv hkey
      simp [scanTagSet, hk, hkey, hv, hne, ih hrest]
    · simp [scanTagSet, hk, hkey, ih hrest]

/-- The per-bucket loop returns the empty name and a nil error when every
listed bucket either has a tagging response with no match, or raises a
NoSuchBucket error and is skipped. -/
theorem findLoop_no_match (env : FindEnv) (key value : String) (bs : List Bucket)
    (h : ∀ b ∈ bs,
      (∃ resp, env.getBucketTagging b.name = (some resp, none) ∧
        noTagMatch key value resp.tagSet) ∨
      (∃ o e, env.getBucketTagging b.name = (o, some e) ∧
        errContains e "NoSuchBucket" = true)) :
    (findLoop env key value bs).1 = .ok ("", none) := by
  induction bs with
  | nil => rfl
  | cons b rest ih =>
    have hrest := ih fun u hu => h u (by simp [hu])
    rcases h b (by simp) with ⟨resp, hresp, hnm⟩ | ⟨o, e, herr, hns⟩
    · simp [findLoop, hresp, scanTagSet_no_match key value b.name resp.tagSet hnm,
        hrest]
    · simp [findLoop, herr, hns, hrest]

/-- C9: when every listed bucket either carries no matching tag pair or has
been deleted (NoSuchBucket), FindS3BucketWithTagE signals not-found as a
successful result: the empty bucket name together with a nil error. -/
theorem C9_not_found_returns_nil (env : FindEnv) (key value : String)
    (bs : List Bucket) (hc : env.clientErr = none) (hl : env.listBuckets = .ok bs)
    (h : ∀ b ∈ bs,
      (∃ resp, env.getBucketTagging b.name = (some resp, none) ∧
        noTagMatch key value resp.tagSet) ∨
      (∃ o e, env.getBucketTagging b.name = (o, some e) ∧
        errContains e "NoSuchBucket" = true)) :
    (FindS3BucketWithTagE env key value).1 = .ok ("", none) := by
  simp [FindS3BucketWithTagE, hc, hl, findLoop_no_match env key value bs h]

/-- A model with one bucket carrying a non-matching tag and one already
deleted bucket. -/
def fenvC9 : FindEnv :=
  { clientErr := none,
    listBuckets := .ok [{ name := some "b1" }, { name := some "b2" }],
    getBucketTagging := fun n =>
      if n = some "b1" then
        (some { tagSet := [{ key := some "env", value := some "prod" }] }, none)
      else (none, some "NoSuchBucket: the specified bucket does not exist") }

/-- Witness for C9: searching for a tag no bucket carries returns the empty
string and a nil error. -/
theorem C9_not_found_returns_nil_witness :
    (FindS3BucketWithTagE fenvC9 "owner" "qa").1 = .ok ("", none) := by
  apply C9_not_found_returns_nil fenvC9 "owner" "qa"
    [{ name := some "b1" }, { name := some "b2" }] rfl rfl
  intro b hb
  have hb2 : b = { name := some "b1" } ∨ b = { name := some "b2" } := by
    simpa using hb
  rcases hb2 with rfl | rfl
  · refine Or.inl ⟨{ tagSet := [{ key := some "env", value := some "prod" }] },
      by decide, ?_⟩
    intro t ht
    have ht2 : t = { key := some "env", value := some "prod" } := by simpa using ht
    subst ht2
    exact ⟨"env", rfl, fun hcontra => absurd hcontra (by decide)⟩
  · exact Or.inr ⟨none, "NoSuchBucket: the specified bucket does not exist",
      by decide, by decide⟩

/-! ## Claim C2 -/

/-- C2: every assertion-failing helper invokes exactly its error-returning
twin: it fails the calling test exactly when the twin returns a non-nil
error, and otherwise returns exactly the value the twin returned. One
conjunct per embedded pair. -/
theorem C2_wrappers_delegate :
    (∀ (env : FindEnv) (key value : String),
      (FindS3BucketWithTag env key value = .failedTest ↔
        ∃ v e, (FindS3BucketWithTagE env key value).1 = .ok (v, some e)) ∧
      ∀ v, (FindS3BucketWithTagE env key value).1 = .ok (v, none) →
        FindS3BucketWithTag env key value = .returned v) ∧
    (∀ env : TagsEnv,
      (GetS3BucketTags env = .failedTest ↔
        ∃ v e, (GetS3BucketTagsE env).1 = .ok (v, some e)) ∧
      ∀ v, (GetS3BucketTagsE env).1 = .ok (v, none) →
        GetS3BucketTags env = .returned v) ∧
    (∀ env : ObjectEnv,
      (GetS3ObjectContents env = .failedTest ↔
        ∃ v e, (GetS3ObjectContentsE env).1 = .ok (v, some e)) ∧
      ∀ v, (GetS3ObjectContentsE env).1 = .ok (v, none) →
        GetS3ObjectContents env = .returned v) ∧
    (∀ env : PutObjectEnv,
      (PutS3ObjectContents env = .failedTest ↔
        ∃ e, (PutS3ObjectContentsE env).1 = some e) ∧
      ((PutS3ObjectContentsE env).1 = none →
        PutS3ObjectContents env = .returned ())) ∧
    (∀ (env : CreateEnv) (region name : String),
      (CreateS3Bucket env region name = .failedTest ↔
        ∃ e, (CreateS3BucketE env region name).1 = some e) ∧
      ((CreateS3BucketE env region name).1 = none →
        CreateS3Bucket env region name = .returned ())) ∧
    (∀ env : PutPolicyEnv,
      (PutS3BucketPolicy env = .failedTest ↔
        ∃ e, (PutS3BucketPolicyE env).1 = some e) ∧
      ((PutS3BucketPolicyE env).1 = none →
        PutS3BucketPolicy env = .returned ())) ∧
    (∀ env : PutVersioningEnv,
      (PutS3BucketVersioning env = .failedTest ↔
        ∃ e, (PutS3BucketVersioningE env).1 = some e) ∧
      ((PutS3BucketVersioningE env).1 = none →
        PutS3BucketVersioning env = .returned ())) ∧
    (∀ env : DeleteBucketEnv,
      (DeleteS3Bucket env = .failedTest ↔
        ∃ e, (DeleteS3BucketE env).1 = some e) ∧
      ((DeleteS3BucketE env).1 = none →
        DeleteS3Bucket env = .returned ())) ∧
    (∀ {σ : Type} (env : EmptyEnv σ) (fuel : Nat) (s : σ),
      (EmptyS3Bucket env fuel s = .failedTest ↔
        ∃ e, (EmptyS3BucketE env fuel s).1 = .retErr e) ∧
      ((EmptyS3BucketE env fuel s).1 = .retNil →
        EmptyS3Bucket env fuel s = .returned ())) ∧
    (∀ (env : LoggingEnv) (bucket region : String),
      (GetS3BucketLoggingTarget env bucket region = .failedTest ↔
        ∃ v e, (GetS3BucketLoggingTargetE env bucket region).1 = .ok (v, some e)) ∧
      ∀ v, (GetS3BucketLoggingTargetE env bucket region).1 = .ok (v, none) →
        GetS3BucketLoggingTarget env bucket region = .returned v) ∧
    (∀ env : VersioningEnv,
      (GetS3BucketVersioning env = .failedTest ↔
        ∃ v e, (GetS3BucketVersioningE env).1 = .ok (v, some e)) ∧
      ∀ v, (GetS3BucketVersioningE env).1 = .ok (v, none) →
        GetS3BucketVersioning env = .returned v) ∧
    (∀ env : PolicyEnv,
      (GetS3BucketPolicy env = .failedTest ↔
        ∃ v e, (GetS3BucketPolicyE env).1 = .ok (v, some e)) ∧
      ∀ v, (GetS3BucketPolicyE env).1 = .ok (v, none) →
        GetS3BucketPolicy env = .returned v) ∧
    (∀ env : OwnershipEnv,
      (GetS3BucketOwnershipControls env = .failedTest ↔
        ∃ v e, (GetS3BucketOwnershipControlsE env).1 = .ok (v, some e)) ∧
      ∀ v, (GetS3BucketOwnershipControlsE env).1 = .ok (v, none) →
        GetS3BucketOwnershipControls env = .returned v) ∧
    (∀ env : HeadBucketEnv,
      (AssertS3BucketExists env = .failedTest ↔
        ∃ e, (AssertS3BucketExistsE env).1 = some e) ∧
      ((AssertS3BucketExistsE env).1 = none →
        AssertS3BucketExists env = .returned ())) ∧
    (∀ (env : VersioningEnv) (region bucketName : String),
      (AssertS3BucketVersioningExists env region bucketName = .failedTest ↔
        ∃ e, (AssertS3BucketVersioningExistsE env region bucketName).1 = .ok (some e)) ∧
      ((AssertS3BucketVersioningExistsE env region bucketName).1 = .ok none →
        AssertS3BucketVersioningExists env region bucketName = .returned ())) ∧
    (∀ (env : PolicyEnv) (region bucketName : String),
      (AssertS3BucketPolicyExists env region bucketName = .failedTest ↔
        ∃ e, (AssertS3BucketPolicyExistsE env region bucketName).1 = .ok (some e)) ∧
      ((AssertS3BucketPolicyExistsE env region bucketName).1 = .ok none →
        AssertS3BucketPolicyExists env region bucketName = .returned ())) ∧
    (∀ (env : LoggingEnv) (bucket region : String),
      ( GetS3BucketLoggingTargetPrefix env bucket region = .failedTest ↔
        ∃ v e, (GetS3BucketLoggingTargetPrefixE env bucket region).1 = .ok (v, some e)) ∧
      ∀ v, (GetS3BucketLoggingTargetPrefixE env bucket region).1 = .ok (v, none) →
        GetS3BucketLoggingTargetPrefix env bucket region = .returned v) ∧
    (∀ env : ClientEnv,
      (NewS3Client env = .failedTest ↔ ∃ c e, NewS3ClientE env = (c, some e)) ∧
      ∀ c, NewS3ClientE env = (c, none) → NewS3Client env = .returned c) ∧
    (∀ env : ClientEnv,
      (NewS3Uploader env = .failedTest ↔ ∃ u e, NewS3UploaderE env = (u, some e)) ∧
      ∀ u, NewS3UploaderE env = (u, none) → NewS3Uploader env = .returned u) := by
  refine ⟨?_, ?_, ?_, ?_, ?_, ?_, ?_, ?_, ?_, ?_, ?_, ?_, ?_, ?_, ?_, ?_, ?_, ?_, ?_⟩
  · intro env key value
    exact requireWrap_spec ((FindS3BucketWithTagE env key value).1)
  · intro env
    exact requireWrap_spec ((GetS3BucketTagsE env).1)
  · intro env
    exact requireWrap_spec ((GetS3ObjectContentsE env).1)
  · intro env
    exact requireWrapErr_spec ((PutS3ObjectContentsE env).1)
  · intro env region name
    exact requireWrapErr_spec ((CreateS3BucketE env region name).1)
  · intro env
    exact requireWrapErr_spec ((PutS3BucketPolicyE env).1)
  · intro env
    exact requireWrapErr_spec ((PutS3BucketVersioningE env).1)
  · intro env
    exact requireWrapErr_spec ((DeleteS3BucketE env).1)
  · intro σ env fuel s
    cases hst : (EmptyS3BucketE env fuel s).1 <;> simp [EmptyS3Bucket, hst]
  · intro env bucket region
    exact requireWrap_spec ((GetS3BucketLoggingTargetE env bucket region).1)
  · intro env
    exact requireWrap_spec ((GetS3BucketVersioningE env).1)
  · intro env
    exact requireWrap_spec ((GetS3BucketPolicyE env).1)
  · intro env
    exact requireWrap_spec ((GetS3BucketOwnershipControlsE env).1)
  · intro env
    exact requireWrapErr_spec ((AssertS3BucketExistsE env).1)
  · intro env region bucketName
    exact requireWrapErrG_spec ((AssertS3BucketVersioningExistsE env region bucketName).1)
  · intro env region bucketName
    exact requireWrapErrG_spec ((AssertS3BucketPolicyExistsE env region bucketName).1)
  · intro env bucket region
    exact requireWrap_spec ((GetS3BucketLoggingTargetPrefixE env bucket region).1)
  · intro env
    exact requireWrapPair_spec (NewS3ClientE env)
  · intro env
    exact requireWrapPair_spec (NewS3UploaderE env)

/-- Witness for C2: at a concrete model the tags wrapper passes the twin value
through on success, and the create wrapper fails the test on a twin error. -/
theorem C2_wrappers_delegate_witness :
    GetS3BucketTags
        { clientErr := none, getBucketTagging := (some { tagSet := [] }, none) } =
      .returned (some []) ∧
    CreateS3Bucket { clientErr := none, createBucket := fun _ => some "denied" }
        "eu-west-1" "b" = .failedTest := by
  constructor
  · exact (C2_wrappers_delegate.2.1
      { clientErr := none, getBucketTagging := (some { tagSet := [] }, none) }).2
      (some []) rfl
  · exact ((C2_wrappers_delegate.2.2.2.2.1
      { clientErr := none, createBucket := fun _ => some "denied" }
      "eu-west-1" "b").1).mpr ⟨"denied", rfl⟩

/-! ## Claim C6 -/

/-- C6: every error-returning helper passes an SDK error through without
retry: it returns at once with that same error and the zero value of its
result type, issuing no further SDK call. The sole exception is
FindS3BucketWithTagE, which skips a bucket on a NoSuchBucket error and
continues past errors containing AuthorizationHeaderMalformed,
BucketRegionError or NoSuchTagSet, and still returns any other error at
once. -/
theorem C6_error_passthrough :
    (∀ (env : TagsEnv) (o : Option GetBucketTaggingOutput) (e : String),
      env.clientErr = none → env.getBucketTagging = (o, some e) →
      GetS3BucketTagsE env = (.ok (none, some e), [.getBucketTagging none])) ∧
    (∀ (env : ObjectEnv) (r : Option GetObjectOutput) (e : String),
      env.clientErr = none → env.getObject = (r, some e) →
      GetS3ObjectContentsE env = (.ok ("", some e), [.getObject])) ∧
    (∀ (env : PutObjectEnv) (e : String),
      env.clientErr = none → env.putObject = some e →
      PutS3ObjectContentsE env = (some e, [.putObject])) ∧
    (∀ (env : CreateEnv) (region name e : String),
      env.clientErr = none →
      env.createBucket (buildCreateBucketInput region name) = some e →
      CreateS3BucketE env region name =
        (some e, [.createBucket (buildCreateBucketInput region name)])) ∧
    (∀ (env : PutPolicyEnv) (e : String),
      env.clientErr = none → env.putBucketPolicy = some e →
      PutS3BucketPolicyE env = (some e, [.putBucketPolicy])) ∧
    (∀ (env : PutVersioningEnv) (e : String),
      env.clientErr = none → env.putBucketVersioning = some e →
      PutS3BucketVersioningE env = (some e, [.putBucketVersioning])) ∧
    (∀ (env : DeleteBucketEnv) (e : String),
      env.clientErr = none → env.deleteBucket = some e →
      DeleteS3BucketE env = (some e, [.deleteBucket])) ∧
    (∀ (env : HeadBucketEnv) (e : String),
      env.clientErr = none → env.headBucket = some e →
      AssertS3BucketExistsE env = (some e, [.headBucket])) ∧
    (∀ (env : LoggingEnv) (bucket region : String)
        (r : Option GetBucketLoggingOutput) (e : String),
      env.clientErr = none → env.getBucketLogging = (r, some e) →
      GetS3BucketLoggingTargetE env bucket region =
        (.ok ("", some e), [.getBucketLogging]) ∧
      GetS3BucketLoggingTargetPrefixE env bucket region =
        (.ok ("", some e), [.getBucketLogging])) ∧
    (∀ (env : VersioningEnv) (r : Option GetBucketVersioningOutput) (e : String),
      env.clientErr = none → env.getBucketVersioning = (r, some e) →
      GetS3BucketVersioningE env = (.ok ("", some e), [.getBucketVersioning])) ∧
    (∀ (env : PolicyEnv) (r : Option GetBucketPolicyOutput) (e : String),
      env.clientErr = none → env.getBucketPolicy = (r, some e) →
      GetS3BucketPolicyE env = (.ok ("", some e), [.getBucketPolicy])) ∧
    (∀ (env : OwnershipEnv) (r : Option GetBucketOwnershipControlsOutput) (e : String),
      env.clientErr = none → env.getBucketOwnershipControls = (r, some e) →
      GetS3BucketOwnershipControlsE env =
        (.ok (none, some e), [.getBucketOwnershipControls])) ∧
    (∀ (σ : Type) (env : EmptyEnv σ) (fuel : Nat) (s : σ) (km : Option String)
        (e : String),
      env.listObjectVersions s km = .error e →
      emptyLoop env (fuel + 1) s km = (.retErr e, s, [.listObjectVersions km])) ∧
    (∀ (σ : Type) (env : EmptyEnv σ) (fuel : Nat) (s : σ) (km : Option String)
        (out : ListObjectVersionsOutput) (e : String),
      env.listObjectVersions s km = .ok out → out.versions ≠ [] →
      env.deleteObjects s (idsOf out) = .error e →
      emptyLoop env (fuel + 1) s km =
        (.retErr e, s, [.listObjectVersions km, .deleteObjects (idsOf out)])) ∧
    (∀ (env : FindEnv) (key value : String) (b : Bucket) (rest : List Bucket)
        (o : Option GetBucketTaggingOutput) (e : String),
      env.getBucketTagging b.name = (o, some e) →
      errContains e "NoSuchBucket" = true →
      findLoop env key value (b :: rest) =
        ((findLoop env key value rest).1,
         .getBucketTagging b.name :: (findLoop env key value rest).2)) ∧
    (∀ (env : FindEnv) (key value : String) (b : Bucket) (rest : List Bucket)
        (resp : GetBucketTaggingOutput) (e : String),
      env.getBucketTagging b.name = (some resp, some e) →
      errContains e "NoSuchBucket" = false →
      (errContains e "AuthorizationHeaderMalformed" ||
        errContains e "BucketRegionError" ||
        errContains e "NoSuchTagSet") = true →
      scanTagSet key value b.name resp.tagSet = .ok none →
      findLoop env key value (b :: rest) =
        ((findLoop env key value rest).1,
         .getBucketTagging b.name :: (findLoop env key value rest).2)) ∧
    (∀ (env : FindEnv) (key value : String) (b : Bucket) (rest : List Bucket)
        (o : Option GetBucketTaggingOutput) (e : String),
      env.getBucketTagging b.name = (o, some e) →
      errContains e "NoSuchBucket" = false →
      errContains e "AuthorizationHeaderMalformed" = false →
      errContains e "BucketRegionError" = false →
      errContains e "NoSuchTagSet" = false →
      findLoop env key value (b :: rest) =
        (.ok ("", some e), [.getBucketTagging b.name])) ∧
    (∀ (env : FindEnv) (key value e : String),
      env.clientErr = none → env.listBuckets = .error e →
      FindS3BucketWithTagE env key value = (.ok ("", some e), [.listBuckets])) ∧
    (∀ (env : VersioningEnv) (region bucketName : String)
        (r : Option GetBucketVersioningOutput) (e : String),
      env.clientErr = none → env.getBucketVersioning = (r, some e) →
      AssertS3BucketVersioningExistsE env region bucketName =
        (.ok (some e), [.getBucketVersioning])) ∧
    (∀ (env : PolicyEnv) (region bucketName : String)
        (r : Option GetBucketPolicyOutput) (e : String),
      env.clientErr = none → env.getBucketPolicy = (r, some e) →
      AssertS3BucketPolicyExistsE env region bucketName =
        (.ok (some e), [.getBucketPolicy])) := by
  refine ⟨?_, ?_, ?_, ?_, ?_, ?_, ?_, ?_, ?_, ?_, ?_, ?_, ?_, ?_, ?_, ?_, ?_, ?_, ?_, ?_⟩
  · intro env o e hc h
    simp [GetS3BucketTagsE, hc, h]
  · intro env r e hc h
    simp [GetS3ObjectContentsE, hc, h]
  · intro env e hc h
    simp [PutS3ObjectContentsE, hc, h]
  · intro env region name e hc h
    simp [CreateS3BucketE, hc, h]
  · intro env e hc h
    simp [PutS3BucketPolicyE, hc, h]
  · intro env e hc h
    simp [PutS3BucketVersioningE, hc, h]
  · intro env e hc h
    simp [DeleteS3BucketE, hc, h]
  · intro env e hc h
    simp [AssertS3BucketExistsE, hc, h]
  · intro env bucket region r e hc h
    constructor
    · simp [GetS3BucketLoggingTargetE, hc, h]
    · simp [GetS3BucketLoggingTargetPrefixE, hc, h]
  · intro env r e hc h
    simp [GetS3BucketVersioningE, hc, h]
  · intro env r e hc h
    simp [GetS3BucketPolicyE, hc, h]
  · intro env r e hc h
    simp [GetS3BucketOwnershipControlsE, hc, h]
  · intro σ env fuel s km e h
    simp [emptyLoop, h]
  · intro σ env fuel s km out e hlv hv hdel
    have hlen : ¬ out.versions.length = 0 := by
      simpa [List.length_eq_zero] using hv
    simp [emptyLoop, hlv, hlen, hdel]
  · intro env key value b rest o e h hns
    simp [findLoop, h, hns]
  · intro env key value b rest resp e h hns h3 hscan
    have hcond : (!errContains e "AuthorizationHeaderMalformed" &&
        !errContains e "BucketRegionError" &&
        !errContains e "NoSuchTagSet") = false := by
      cases hA : errContains e "AuthorizationHeaderMalformed" <;>
        cases hB : errContains e "BucketRegionError" <;>
        cases hC : errContains e "NoSuchTagSet" <;>
        simp_all
    simp [findLoop, h, hns, hcond, hscan]
  · intro env key value b rest o e h hns h1 h2 h3
    simp [findLoop, h, hns, h1, h2, h3]
  · intro env key value e hc h
    simp [FindS3BucketWithTagE, hc, h]
  · intro env region bucketName r e hc h
    simp [AssertS3BucketVersioningExistsE, GetS3BucketVersioningE, hc, h]
  · intro env region bucketName r e hc h
    simp [AssertS3BucketPolicyExistsE, GetS3BucketPolicyE, hc, h]

/-- Witness for C6: concrete error passthrough for the tags getter, a listing
failure in the emptying loop, and a hard error in the tag search. -/
theorem C6_error_passthrough_witness :
    GetS3BucketTagsE { clientErr := none, getBucketTagging := (none, some "AccessDenied") } =
      (.ok (none, some "AccessDenied"), [.getBucketTagging none]) ∧
    emptyLoop
        { clientErr := none,
          listObjectVersions := fun (_ : Unit) _ => .error "Throttled",
          deleteObjects := fun s _ => .ok s } 1 () none =
      (.retErr "Throttled", (), [.listObjectVersions none]) ∧
    findLoop
        { clientErr := none, listBuckets := .ok [{ name := some "b" }],
          getBucketTagging := fun _ => (none, some "AccessDenied") }
        "k" "v" [{ name := some "b" }] =
      (.ok ("", some "AccessDenied"), [.getBucketTagging (some "b")]) := by
  refine ⟨?_, ?_, ?_⟩
  · exact C6_error_passthrough.1
      { clientErr := none, getBucketTagging := (none, some "AccessDenied") }
      none "AccessDenied" rfl rfl
  · exact C6_error_passthrough.2.2.2.2.2.2.2.2.2.2.2.2.1 Unit
      { clientErr := none,
        listObjectVersions := fun (_ : Unit) _ => .error "Throttled",
        deleteObjects := fun s _ => .ok s } 0 () none "Throttled" rfl
  · exact C6_error_passthrough.2.2.2.2.2.2.2.2.2.2.2.2.2.2.2.2.1
      { clientErr := none, listBuckets := .ok [{ name := some "b" }],
        getBucketTagging := fun _ => (none, some "AccessDenied") }
      "k" "v" { name := some "b" } [] none "AccessDenied" rfl
      (by decide) (by decide) (by decide) (by decide)

/-! ## Claim C3, amended part -/

/-- Every SDK call the EmptyS3BucketE loop issues is a ListObjectVersions or
a DeleteObjects call. -/
theorem emptyLoop_calls {σ : Type} (env : EmptyEnv σ) :
    ∀ (fuel : Nat) (s : σ) (km : Option String),
      ∀ c ∈ (emptyLoop env fuel s km).2.2,
        (∃ n, c = SdkCall.listObjectVersions n) ∨
        ∃ os, c = SdkCall.deleteObjects os := by
  intro fuel
  induction fuel with
  | zero =>
    intro s km c hc
    simp [emptyLoop] at hc
  | succ f ih =>
    intro s km c hc
    rcases hlv : env.listObjectVersions s km with e | out
    · simp [emptyLoop, hlv] at hc
      exact Or.inl ⟨km, hc⟩
    · by_cases hv : out.versions.length = 0
      · simp [emptyLoop, hlv, hv] at hc
        exact Or.inl ⟨km, hc⟩
      · rcases hdel : env.deleteObjects s (idsOf out) with e | s2
        · simp [emptyLoop, hlv, hv, hdel] at hc
          rcases hc with rfl | rfl
          · exact Or.inl ⟨km, rfl⟩
          · exact Or.inr ⟨idsOf out, rfl⟩
        · rcases htr : out.isTruncated with _ | b
          · simp [emptyLoop, hlv, hv, hdel, htr] at hc
            rcases hc with rfl | rfl
            · exact Or.inl ⟨km, rfl⟩
            · exact Or.inr ⟨idsOf out, rfl⟩
          · cases b with
            | false =>
              simp [emptyLoop, hlv, hv, hdel, htr] at hc
              rcases hc with rfl | rfl
              · exact Or.inl ⟨km, rfl⟩
              · exact Or.inr ⟨idsOf out, rfl⟩
            | true =>
              rcases hnk : out.nextKeyMarker with _ | nk
              · simp [emptyLoop, hlv, hv, hdel, htr, hnk] at hc
                rcases hc with rfl | rfl
                · exact Or.inl ⟨km, rfl⟩
                · exact Or.inr ⟨idsOf out, rfl⟩
              · simp [emptyLoop, hlv, hv, hdel, htr, hnk] at hc
                rcases hc with rfl | rfl | hc
                · exact Or.inl ⟨km, rfl⟩
                · exact Or.inr ⟨idsOf out, rfl⟩
                · exact ih s2 (some nk) c hc

/-- Every SDK call the FindS3BucketWithTagE per-bucket loop issues is a
GetBucketTagging call. -/
theorem findLoop_calls (env : FindEnv) (key value : String) :
    ∀ (bs : List Bucket), ∀ c ∈ (findLoop env key value bs).2,
      ∃ n, c = SdkCall.getBucketTagging n := by
  intro bs
  induction bs with
  | nil =>
    intro c hc
    simp [findLoop] at hc
  | cons b rest ih =>
    intro c hc
    rcases herr : (env.getBucketTagging b.name).2 with _ | e
    · rcases ho : (env.getBucketTagging b.name).1 with _ | resp
      · simp [findLoop, herr, ho] at hc
        exact ⟨b.name, hc⟩
      · cases hscan : scanTagSet key value b.name resp.tagSet with
        | panicked =>
          simp [findLoop, herr, ho, hscan] at hc
          exact ⟨b.name, hc⟩
        | ok o =>
          cases o with
          | some n =>
            simp [findLoop, herr, ho, hscan] at hc
            exact ⟨b.name, hc⟩
          | none =>
            simp [findLoop, herr, ho, hscan] at hc
            rcases hc with rfl | hc
            · exact ⟨b.name, rfl⟩
            · exact ih c hc
    · by_cases hns : errContains e "NoSuchBucket" = true
      · simp [findLoop, herr, hns] at hc
        rcases hc with rfl | hc
        · exact ⟨b.name, rfl⟩
        · exact ih c hc
      · rw [Bool.not_eq_true] at hns
        by_cases hcond : (!errContains e "AuthorizationHeaderMalformed" &&
            !errContains e "BucketRegionError" &&
            !errContains e "NoSuchTagSet") = true
        · simp [findLoop, herr, hns, hcond] at hc
          exact ⟨b.name, hc⟩
        · rw [Bool.not_eq_true] at hcond
          rcases ho : (env.getBucketTagging b.name).1 with _ | resp
          · simp [findLoop, herr, hns, hcond, ho] at hc
            exact ⟨b.name, hc⟩
          · cases hscan : scanTagSet key value b.name resp.tagSet with
            | panicked =>
              simp [findLoop, herr, hns, hcond, ho, hscan] at hc
              exact ⟨b.name, hc⟩
            | ok o =>
              cases o with
              | some n =>
                simp [findLoop, herr, hns, hcond, ho, hscan] at hc
                exact ⟨b.name, hc⟩
              | none =>
                simp [findLoop, herr, hns, hcond, ho, hscan] at hc
                rcases hc with rfl | hc
                · exact ⟨b.name, rfl⟩
                · exact ih c hc

/-- A model for the amended C3 in which FindS3BucketWithTagE examines one
bucket, issuing two SDK calls. -/
def fenvC3find : FindEnv :=
  { clientErr := none,
    listBuckets := .ok [{ name := some "b" }],
    getBucketTagging := fun _ => (some { tagSet := [] }, none) }

/-- C3 amended: every error-returning helper other than FindS3BucketWithTagE
and EmptyS3BucketE issues exactly one SDK call beyond client construction
(the Assert helpers delegate to a getter and still issue exactly one call in
total). FindS3BucketWithTagE and EmptyS3BucketE can issue more than one call:
the former issues a ListBuckets call followed only by GetBucketTagging calls,
the latter issues only ListObjectVersions and DeleteObjects calls. -/
theorem C3_call_counts :
    (∀ env : TagsEnv, env.clientErr = none →
      (GetS3BucketTagsE env).2.length = 1) ∧
    (∀ env : ObjectEnv, env.clientErr = none →
      (GetS3ObjectContentsE env).2.length = 1) ∧
    (∀ env : PutObjectEnv, env.clientErr = none →
      (PutS3ObjectContentsE env).2.length = 1) ∧
    (∀ (env : CreateEnv) (region name : String), env.clientErr = none →
      (CreateS3BucketE env region name).2.length = 1) ∧
    (∀ env : PutPolicyEnv, env.clientErr = none →
      (PutS3BucketPolicyE env).2.length = 1) ∧
    (∀ env : PutVersioningEnv, env.clientErr = none →
      (PutS3BucketVersioningE env).2.length = 1) ∧
    (∀ env : DeleteBucketEnv, env.clientErr = none →
      (DeleteS3BucketE env).2.length = 1) ∧
    (∀ env : HeadBucketEnv, env.clientErr = none →
      (AssertS3BucketExistsE env).2.length = 1) ∧
    (∀ (env : LoggingEnv) (bucket region : String), env.clientErr = none →
      (GetS3BucketLoggingTargetE env bucket region).2.length = 1 ∧
      (GetS3BucketLoggingTargetPrefixE env bucket region).2.length = 1) ∧
    (∀ env : VersioningEnv, env.clientErr = none →
      (GetS3BucketVersioningE env).2.length = 1) ∧
    (∀ env : PolicyEnv, env.clientErr = none →
      (GetS3BucketPolicyE env).2.length = 1) ∧
    (∀ env : OwnershipEnv, env.clientErr = none →
      (GetS3BucketOwnershipControlsE env).2.length = 1) ∧
    (∀ (env : VersioningEnv) (region bucketName : String), env.clientErr = none →
      (AssertS3BucketVersioningExistsE env region bucketName).2.length = 1) ∧
    (∀ (env : PolicyEnv) (region bucketName : String), env.clientErr = none →
      (AssertS3BucketPolicyExistsE env region bucketName).2.length = 1) ∧
    (∃ (env : FindEnv) (key value : String), env.clientErr = none ∧
      1 < (FindS3BucketWithTagE env key value).2.length) ∧
    (∃ (env : EmptyEnv (List ObjectVersion)) (fuel : Nat) (s : List ObjectVersion),
      env.clientErr = none ∧ 1 < (EmptyS3BucketE env fuel s).2.2.length) ∧
    (∀ (env : FindEnv) (key value : String),
      ∀ c ∈ (FindS3BucketWithTagE env key value).2,
        c = SdkCall.listBuckets ∨ ∃ n, c = SdkCall.getBucketTagging n) ∧
    (∀ (σ : Type) (env : EmptyEnv σ) (fuel : Nat) (s : σ),
      ∀ c ∈ (EmptyS3BucketE env fuel s).2.2,
        (∃ n, c = SdkCall.listObjectVersions n) ∨
        ∃ os, c = SdkCall.deleteObjects os) := by
  refine ⟨?_, ?_, ?_, ?_, ?_, ?_, ?_, ?_, ?_, ?_, ?_, ?_, ?_, ?_, ?_, ?_, ?_, ?_⟩
  · intro env h
    rcases herr : (env.getBucketTagging).2 with _ | e
    · rcases ho : (env.getBucketTagging).1 with _ | out <;>
        simp [GetS3BucketTagsE, h, herr, ho]
    · simp [GetS3BucketTagsE, h, herr]
  · intro env h
    rcases herr : (env.getObject).2 with _ | e
    · rcases ho : (env.getObject).1 with _ | out
      · simp [GetS3ObjectContentsE, h, herr, ho]
      · rcases hb : out.readBody with e2 | cont <;>
          simp [GetS3ObjectContentsE, h, herr, ho, hb]
    · simp [GetS3ObjectContentsE, h, herr]
  · intro env h
    simp [PutS3ObjectContentsE, h]
  · intro env region name h
    simp [CreateS3BucketE, h]
  · intro env h
    simp [PutS3BucketPolicyE, h]
  · intro env h
    simp [PutS3BucketVersioningE, h]
  · intro env h
    simp [DeleteS3BucketE, h]
  · intro env h
    simp [AssertS3BucketExistsE, h]
  · intro env bucket region h
    rcases herr : (env.getBucketLogging).2 with _ | e
    · rcases ho : (env.getBucketLogging).1 with _ | res
      · constructor <;>
          simp [GetS3BucketLoggingTargetE, GetS3BucketLoggingTargetPrefixE, h, herr, ho]
      · rcases hle : res.loggingEnabled with _ | le <;> constructor <;>
          simp [GetS3BucketLoggingTargetE, GetS3BucketLoggingTargetPrefixE,
            h, herr, ho, hle]
    · constructor <;>
        simp [GetS3BucketLoggingTargetE, GetS3BucketLoggingTargetPrefixE, h, herr]
  · intro env h
    rcases herr : (env.getBucketVersioning).2 with _ | e
    · rcases ho : (env.getBucketVersioning).1 with _ | res <;>
        simp [GetS3BucketVersioningE, h, herr, ho]
    · simp [GetS3BucketVersioningE, h, herr]
  · intro env h
    rcases herr : (env.getBucketPolicy).2 with _ | e
    · rcases ho : (env.getBucketPolicy).1 with _ | res <;>
        simp [GetS3BucketPolicyE, h, herr, ho]
    · simp [GetS3BucketPolicyE, h, herr]
  · intro env h
    rcases herr : (env.getBucketOwnershipControls).2 with _ | e
    · rcases ho : (env.getBucketOwnershipControls).1 with _ | out
      · simp [GetS3BucketOwnershipControlsE, h, herr, ho]
      · rcases hoc : out.ownershipControls with _ | oc <;>
          simp [GetS3BucketOwnershipControlsE, h, herr, ho, hoc]
    · simp [GetS3BucketOwnershipControlsE, h, herr]
  · intro env region bucketName h
    rcases herr : (env.getBucketVersioning).2 with _ | e
    · rcases ho : (env.getBucketVersioning).1 with _ | res
      · simp [AssertS3BucketVersioningExistsE, GetS3BucketVersioningE, h, herr, ho]
      · by_cases hs : res.status = "Enabled" <;>
          simp [AssertS3BucketVersioningExistsE, GetS3BucketVersioningE,
            h, herr, ho, hs]
    · simp [AssertS3BucketVersioningExistsE, GetS3BucketVersioningE, h, herr]
  · intro env region bucketName h
    rcases herr : (env.getBucketPolicy).2 with _ | e
    · rcases ho : (env.getBucketPolicy).1 with _ | res
      · simp [AssertS3BucketPolicyExistsE, GetS3BucketPolicyE, h, herr, ho]
      · by_cases hs : awsToString res.policy = "" <;>
          simp [AssertS3BucketPolicyExistsE, GetS3BucketPolicyE, h, herr, ho, hs]
    · simp [AssertS3BucketPolicyExistsE, GetS3BucketPolicyE, h, herr]
  · exact ⟨fenvC3find, "k", "v", rfl, by decide⟩
  · exact ⟨envC3, 2, s0C3, rfl, by decide⟩
  · intro env key value c hc
    rcases hcl : env.clientErr with _ | e
    · rcases hlb : env.listBuckets with e | bs
      · simp [FindS3BucketWithTagE, hcl, hlb] at hc
        exact Or.inl hc
      · simp [FindS3BucketWithTagE, hcl, hlb] at hc
        rcases hc with rfl | hc
        · exact Or.inl rfl
        · exact Or.inr (findLoop_calls env key value bs c hc)
    · simp [FindS3BucketWithTagE, hcl] at hc
  · intro σ env fuel s c hc
    rcases hcl : env.clientErr with _ | e
    · simp [EmptyS3BucketE, hcl] at hc
      exact emptyLoop_calls env fuel s none c hc
    · simp [EmptyS3BucketE, hcl] at hc

/-- Witness for C3 amended: the tags getter issues exactly one call at a
concrete model, and the create helper does too. -/
theorem C3_call_counts_witness :
    (GetS3BucketTagsE
        { clientErr := none, getBucketTagging := (some { tagSet := [] }, none) }).2.length = 1 ∧
    (CreateS3BucketE { clientErr := none, createBucket := fun _ => none }
        "us-east-1" "b").2.length = 1 := by
  constructor
  · exact C3_call_counts.1
      { clientErr := none, getBucketTagging := (some { tagSet := [] }, none) } rfl
  · exact C3_call_counts.2.2.2.1
      { clientErr := none, createBucket := fun _ => none } "us-east-1" "b" rfl

end Terratest
